import Mathlib

/-!
Verification of the map-doctor data pipeline (src/data/loader.py, src/app.py,
src/config/settings.py) against its natural-language specification.

The pipeline operates on pandas DataFrames.  We embed a DataFrame shallowly as
a list of column names together with a list of rows, each row an association
list from column name to cell value.  Cell values are strings, numbers
(rationals standing for Python floats), or null (None/NaN).  Randomness
(numpy `np.random.normal`) is embedded by passing the draw source as an
explicit function argument `normal call mean sigma size index`, where `call`
numbers the four successive draw calls made by `preprocess_data`.
-/

/-- A pandas cell value: a string, a number, or null (None/NaN). -/
inductive Value where
  | str (s : String)
  | num (q : ℚ)
  | null
deriving DecidableEq, Repr

/-- A row: an association list from column name to cell value. -/
abbrev Row := List (String × Value)

/-- A DataFrame: column names plus rows. -/
structure DataFrame where
  cols : List String
  rows : List Row
deriving DecidableEq, Repr

/-- Reading a cell of a row; a column missing from the row reads as null. -/
def getCell : Row → String → Value
  | [], _ => Value.null
  | (a, v) :: t, c => if a = c then v else getCell t c

/-- Writing a cell of a row: replace the first binding of the column when
present (preserving entry order), append the binding otherwise. -/
def setCell : Row → String → Value → Row
  | [], c, v => [(c, v)]
  | (a, w) :: t, c, v =>
      if a = c then (c, v) :: t else (a, w) :: setCell t c v

/-- `pd.notna` on an embedded cell value. -/
def notna : Value → Bool
  | Value.null => false
  | _ => true

/-- The string representation used by `filter_data`: cells are passed through
`.fillna('').astype(str)`, so null reads as the empty string.  (Python float
formatting is abstracted by the rational `toString`; the filter claims only
exercise string cells.) -/
def cellStr : Value → String
  | Value.str s => s
  | Value.num q => toString q
  | Value.null => ""

/-- An optional coordinate as a cell value. -/
def optVal : Option ℚ → Value
  | some q => Value.num q
  | none => Value.null

/-- A coordinate cache: a JSON/python dict from key string to a two-element
pair whose components may be null. -/
abbrev Cache := List (String × (Option ℚ × Option ℚ))

/-- Python `dict` lookup (`cache[k]` when present). -/
def cacheFind : Cache → String → Option (Option ℚ × Option ℚ)
  | [], _ => none
  | (a, p) :: t, k => if a = k then some p else cacheFind t k

/-- Python `cache.get(k, (None, None))`. -/
def cacheGet (cc : Cache) (k : String) : Option ℚ × Option ℚ :=
  (cacheFind cc k).getD (none, none)

/-! ## Dataset loader (`load_data`, src/data/loader.py lines 10-33) -/

/-- The diagnostics the loader and cache loader emit through the UI
side-channel (`st.error` / `st.warning`); one constructor per distinct
message. -/
inductive Diag where
  | timeoutMsg
  | httpErrorMsg (e : String)
  | genericMsg (e : String)
  | cacheWarn (f : String) (e : String)
deriving DecidableEq, Repr

/-- A Python return value: either a value or `None`. -/
inductive PyVal (α : Type) where
  | value (a : α)
  | pyNone
deriving DecidableEq, Repr

/-- The possible outcomes of the HTTP GET plus decode plus CSV parse inside
`load_data`: success carries the parsed frame; the three failure
constructors correspond to the three `except` clauses. -/
inductive FetchOutcome where
  | success (df : DataFrame)
  | timeout
  | httpError (e : String)
  | exc (e : String)

/-- `pd.DataFrame()`: the empty frame. -/
def emptyDataFrame : DataFrame := ⟨[], []⟩

/-- Shallow embedding of `load_data` (loader.py lines 10-33) as a function of
the fetch outcome.  In the source, only the generic `except Exception`
branch contains `return pd.DataFrame()`; the `Timeout` and `HTTPError`
branches call `st.error` and then fall off the end of the function, so the
function returns `None` in those two cases. -/
def load_data (o : FetchOutcome) : PyVal DataFrame × List Diag :=
  match o with
  | FetchOutcome.success df => (PyVal.value df, [])
  | FetchOutcome.timeout => (PyVal.pyNone, [Diag.timeoutMsg])
  | FetchOutcome.httpError e => (PyVal.pyNone, [Diag.httpErrorMsg e])
  | FetchOutcome.exc e => (PyVal.value emptyDataFrame, [Diag.genericMsg e])

/-! ## Coordinate cache loader (`load_coords_cache`, loader.py lines 35-47) -/

/-- Decidable check that `n` occurs as a contiguous sublist of `h`. -/
def listSub (n : List Char) : List Char → Bool
  | [] => n.isEmpty
  | a :: t => n.isPrefixOf (a :: t) || listSub n t

/-- Substring test on strings. -/
def strContains (hay needle : String) : Bool :=
  listSub needle.toList hay.toList

/-- Lower-casing a string, character by character. -/
def lowerStr (s : String) : String :=
  String.mk (s.data.map Char.toLower)

/-- A token of the regular-expression fragment modelled for
`Series.str.contains`: a literal character or the dot wildcard. -/
inductive RTok where
  | lit (c : Char)
  | dot
deriving DecidableEq, Repr

/-- The regex metacharacters of Python `re` recognised by the pattern
parser.  A lone brace is treated literally by Python `re`, so braces are
not listed. -/
def regexMeta : List Char :=
  ['.', '*', '+', '?', '(', ')', '[', ']', '|', '^', '$', '\\']

/-- One token of a pattern against one (already lower-cased) character of
the cell; `re.IGNORECASE` folds the pattern character, and the dot matches
every character except a newline. -/
def tokMatch : RTok → Char → Bool
  | RTok.lit c, x => Char.toLower c == x
  | RTok.dot, x => x != '\n'

/-- Matching a literal-and-dot pattern at the start of a character list. -/
def rAt : List RTok → List Char → Bool
  | [], _ => true
  | _ :: _, [] => false
  | tok :: ps, c :: s => tokMatch tok c && rAt ps s

/-- `re.search` for a literal-and-dot pattern: the pattern matches at some
position of the character list. -/
def reSearch (p : List RTok) : List Char → Bool
  | [] => rAt p []
  | c :: t => rAt p (c :: t) || reSearch p t

/-- Parsing a search term into the modelled regex fragment: a dot becomes
the wildcard, any other metacharacter puts the term outside the fragment,
and every remaining character is a literal. -/
def parseRegex : List Char → Option (List RTok)
  | [] => some []
  | c :: t =>
      if c = '.' then (parseRegex t).map (fun p => RTok.dot :: p)
      else if c ∈ regexMeta then none
      else (parseRegex t).map (fun p => RTok.lit c :: p)

/-- Shallow embedding of
`Series.str.contains(term, case=False, na=False)` on a cell: pandas
defaults to `regex=True`, so the term is interpreted as a regular
expression and searched case-insensitively in the cell (`re.search` with
`re.IGNORECASE`).  The modelled fragment is literal-and-dot patterns,
where this definition agrees with `re.search` exactly.  A term using
other regex constructs (quantifiers, classes, groups, alternation,
anchors, escapes - where the program may also raise `re.error` on an
invalid pattern) lies outside the model and falls back to literal
containment; no theorem below evaluates the matcher on such a term. -/
def pandasContains (cell term : String) : Bool :=
  match parseRegex term.data with
  | some p => reSearch p (lowerStr cell).data
  | none => strContains (lowerStr cell) (lowerStr term)

/-- `DEFAULT_DEPT_COORDS` (src/config/settings.py lines 28-32): the
hardcoded fallback table; the source lists the entries for Ain and Aisne
and elides the rest behind a comment. -/
def DEFAULT_DEPT_COORDS : Cache :=
  [("Ain", (some (460667/10000 : ℚ), some (53333/10000 : ℚ))),
   ("Aisne", (some (495667/10000 : ℚ), some (36167/10000 : ℚ)))]

/-- The outcome of opening and JSON-parsing the cache file. -/
inductive CacheLoadOutcome where
  | ok (m : Cache)
  | failure (e : String)

/-- Shallow embedding of `load_coords_cache` (loader.py lines 35-47): on any
exception it warns and falls back to `DEFAULT_DEPT_COORDS` when the file
name contains "dept" (lower-cased), and to the empty mapping otherwise. -/
def load_coords_cache (cache_file : String) (o : CacheLoadOutcome) :
    Cache × List Diag :=
  match o with
  | CacheLoadOutcome.ok m => (m, [])
  | CacheLoadOutcome.failure e =>
      (if strContains (lowerStr cache_file) "dept" then DEFAULT_DEPT_COORDS
       else [],
       [Diag.cacheWarn cache_file e])

/-! ## The call sequence of `main` (src/app.py lines 24-33) -/

/-- Python exceptions that reach the top level in the embedded fragment. -/
inductive PyError where
  | typeError (msg : String)
deriving DecidableEq, Repr

/-- The call `preprocess_data(df, villes_cache)` on src/app.py line 29.
`preprocess_data` (loader.py line 108) declares three required positional
parameters `data`, `commune_cache`, `dept_cache`; the call site supplies
only two arguments, so Python raises `TypeError` at the call, before the
function body runs. -/
def preprocess_call_in_main (df : PyVal DataFrame) (villes_cache : Cache) :
    Except PyError DataFrame :=
  Except.error
    (PyError.typeError
      "preprocess_data() missing 1 required positional argument: dept_cache")

/-- The data-loading phase of `main` (src/app.py lines 24-28):
`df = load_data()`, `villes_cache = load_coords_cache("villes_france_V1.csv")`,
`df = preprocess_data(df, villes_cache)`. -/
def main_load_phase (o : FetchOutcome) (co : CacheLoadOutcome) :
    Except PyError DataFrame :=
  let df := (load_data o).fst
  let villes := (load_coords_cache "villes_france_V1.csv" co).fst
  preprocess_call_in_main df villes

/-! ## Filter engine (`filter_data`, loader.py lines 49-105) -/

/-- The user-selected filter criteria, as built by `display_filters`:
a plain dict of strings in which the empty string stands for an unset
entry (an absent key is equally falsy in the source conditions). -/
structure Filters where
  nom : String
  prenom : String
  genre : String
  ville : String
  code_postal : String
  specialite : String
  search_term : String
deriving DecidableEq, Repr

/-- One equality-constraint step of `filter_data`: `active` is the Python
truthiness test on the supplied value; the restriction runs only when the
value is active and the column exists, and compares the cell through
`.fillna('').astype(str)`. -/
def eqStep (df : DataFrame) (active : Bool) (col v : String) : DataFrame :=
  if active && df.cols.contains col then
    ⟨df.cols, df.rows.filter (fun r => cellStr (getCell r col) == v)⟩
  else df

/-- The fixed list of searchable columns probed by the search block of
`filter_data`, in source order. -/
def searchableCols : List String :=
  ["ps_activite_nom", "ps_activite_prenom",
   "coordonnees_ville", "coordonnees_code_postal"]

/-- The free-text search block of `filter_data` (loader.py lines 80-103):
when the term is non-empty, one containment condition per searchable column
present in the table is collected and the disjunction is applied; when no
condition was collected the frame passes through unchanged. -/
def searchStep (df : DataFrame) (term : String) : DataFrame :=
  if term ≠ "" then
    let present := searchableCols.filter (fun c => df.cols.contains c)
    if present.isEmpty then df
    else
      ⟨df.cols,
       df.rows.filter (fun r =>
         present.any (fun c => pandasContains (cellStr (getCell r c)) term))⟩
  else df

/-- The six sequential equality-constraint steps of `filter_data`
(loader.py lines 56-77), in source order; the gender step additionally
requires the value to differ from "Tous". -/
def eqPhase (df : DataFrame) (fs : Filters) : DataFrame :=
  let d1 := eqStep df (fs.nom != "") "ps_activite_nom" fs.nom
  let d2 := eqStep d1 (fs.prenom != "") "ps_activite_prenom" fs.prenom
  let d3 := eqStep d2 (fs.genre != "" && fs.genre != "Tous")
              "ps_activite_civilite" fs.genre
  let d4 := eqStep d3 (fs.ville != "") "coordonnees_ville" fs.ville
  let d5 := eqStep d4 (fs.code_postal != "") "coordonnees_code_postal"
              fs.code_postal
  eqStep d5 (fs.specialite != "") "type_ps_libelle" fs.specialite

/-- Shallow embedding of `filter_data` (loader.py lines 49-105): the copy of
the input frame, the six equality steps, then the search block. -/
def filter_data (df : DataFrame) (fs : Filters) : DataFrame :=
  searchStep (eqPhase df fs) fs.search_term

/-! ## Coordinate enrichment (`preprocess_data`, loader.py lines 105-160) -/

/-- Append a column name when it is not already present
(`data[c] = ...` on a fresh column). -/
def addColName (cols : List String) (c : String) : List String :=
  if c ∈ cols then cols else cols ++ [c]

/-- Column assignment `df[c] = df.apply-like(f)`: every row receives the
value of `f` at that row, and the column list gains `c`. -/
def setCol (df : DataFrame) (c : String) (f : Row → Value) : DataFrame :=
  ⟨addColName df.cols c, df.rows.map (fun r => setCell r c (f r))⟩

/-- The per-cell commune lookup
`commune_cache.get(str(x), (None, None))[0 or 1] if pd.notna(x) else None`
(loader.py lines 117-118); `first` selects index 0 (latitude column) over
index 1 (longitude column). -/
def communeCoord (cc : Cache) (v : Value) (first : Bool) : Value :=
  match v with
  | Value.null => Value.null
  | v =>
      optVal (if first then (cacheGet cc (cellStr v)).fst
              else (cacheGet cc (cellStr v)).snd)

/-- The per-cell department lookup
`dept_cache.get(x, (None, None))[0 or 1] if pd.notna(x) else None`
(loader.py lines 131-132).  The key is not stringified here; a non-string
cell never equals a string dict key, so `get` yields the default and the
cell resolves to null. -/
def deptCoord (dc : Cache) (v : Value) (first : Bool) : Value :=
  match v with
  | Value.null => Value.null
  | Value.str s =>
      optVal (if first then (cacheGet dc s).fst else (cacheGet dc s).snd)
  | Value.num _ => Value.null

/-- The commune half of the enrichment (loader.py lines 115-122): when the
commune label column exists, both commune coordinate columns are assigned
from the cache lookup; otherwise both columns are initialised to null. -/
def addCommuneCoords (df : DataFrame) (cc : Cache) : DataFrame :=
  if "Libellé de la commune" ∈ df.cols then
    setCol
      (setCol df "Latitude_Commune"
        (fun r => communeCoord cc (getCell r "Libellé de la commune") true))
      "Longitude_Commune"
      (fun r => communeCoord cc (getCell r "Libellé de la commune") false)
  else
    setCol (setCol df "Latitude_Commune" (fun _ => Value.null))
      "Longitude_Commune" (fun _ => Value.null)

/-- The schema adapter (loader.py lines 124-129): the department key column,
chosen in a fixed priority order. -/
def dept_column (cols : List String) : Option String :=
  if "Libellé de la section départementale" ∈ cols then
    some "Libellé de la section départementale"
  else if "Libellé du département" ∈ cols then
    some "Libellé du département"
  else none

/-- The department half of the enrichment (loader.py lines 124-137). -/
def addDeptCoords (df : DataFrame) (dc : Cache) : DataFrame :=
  match dept_column df.cols with
  | some c =>
      setCol
        (setCol df "Latitude_Dept" (fun r => deptCoord dc (getCell r c) true))
        "Longitude_Dept" (fun r => deptCoord dc (getCell r c) false)
  | none =>
      setCol (setCol df "Latitude_Dept" (fun _ => Value.null))
        "Longitude_Dept" (fun _ => Value.null)

/-- The full coordinate-join stage: commune columns then department columns
(loader.py lines 115-137). -/
def enrichStage (data : DataFrame) (cc dc : Cache) : DataFrame :=
  addDeptCoords (addCommuneCoords data cc) dc

/-- The jitter mask for a coordinate pair:
`data[latCol].notna() & data[lonCol].notna()`. -/
def bothNotna (latCol lonCol : String) (r : Row) : Bool :=
  notna (getCell r latCol) && notna (getCell r lonCol)

/-- `mask.sum()` on a boolean series. -/
def trueCount : List Bool → ℕ
  | [] => 0
  | b :: bs => (if b then 1 else 0) + trueCount bs

/-- Adding a cell value and a float offset; only numeric cells are ever
masked in by `bothNotna`. -/
def valAdd : Value → ℚ → Value
  | Value.num x, q => Value.num (x + q)
  | _, _ => Value.null

/-- `data.loc[mask, c] = data.loc[mask, c] + draws`: the i-th masked row in
order receives the i-th draw; `k` counts draws already consumed. -/
def addNoise (rows : List Row) (flags : List Bool) (c : String)
    (draw : ℕ → ℚ) (k : ℕ) : List Row :=
  match rows, flags with
  | [], _ => []
  | rs, [] => rs
  | r :: rs, b :: bs =>
      if b then
        setCell r c (valAdd (getCell r c) (draw k)) :: addNoise rs bs c draw (k + 1)
      else r :: addNoise rs bs c draw k

/-- One jitter block of `preprocess_data` (loader.py lines 139-145 for the
department pair, 147-152 for the commune pair): guard on the presence of
both columns, compute the mask once, and when any row is masked add one
draw stream to the latitude column and a second to the longitude column. -/
def jitterPair (df : DataFrame) (latCol lonCol : String)
    (latDraw lonDraw : ℕ → ℚ) : DataFrame :=
  if latCol ∈ df.cols ∧ lonCol ∈ df.cols then
    let flags := df.rows.map (fun r => bothNotna latCol lonCol r)
    if flags.any (fun b => b) then
      ⟨df.cols,
       addNoise (addNoise df.rows flags latCol latDraw 0) flags lonCol lonDraw 0⟩
    else df
  else df

/-- The department-pair mask count `mask_dept.sum()` of the enriched frame. -/
def deptMaskCount (data : DataFrame) (cc dc : Cache) : ℕ :=
  trueCount ((enrichStage data cc dc).rows.map
    (fun r => bothNotna "Latitude_Dept" "Longitude_Dept" r))

/-- The department jitter stage applied to the enriched frame, with the
draw calls `np.random.normal(0, 0.05, size=mask_dept.sum())` numbered 0
(latitude) and 1 (longitude). -/
def jitterDeptStage (data : DataFrame) (cc dc : Cache)
    (normal : ℕ → ℚ → ℚ → ℕ → ℕ → ℚ) : DataFrame :=
  jitterPair (enrichStage data cc dc) "Latitude_Dept" "Longitude_Dept"
    (normal 0 0 (5/100) (deptMaskCount data cc dc))
    (normal 1 0 (5/100) (deptMaskCount data cc dc))

/-- The commune-pair mask count `mask_commune.sum()`, computed on the frame
after the department jitter. -/
def communeMaskCount (data : DataFrame) (cc dc : Cache)
    (normal : ℕ → ℚ → ℚ → ℕ → ℕ → ℚ) : ℕ :=
  trueCount ((jitterDeptStage data cc dc normal).rows.map
    (fun r => bothNotna "Latitude_Commune" "Longitude_Commune" r))

/-- The commune jitter stage, with the draw calls
`np.random.normal(0, 0.001, size=mask_commune.sum())` numbered 2 (latitude)
and 3 (longitude). -/
def jitterCommuneStage (data : DataFrame) (cc dc : Cache)
    (normal : ℕ → ℚ → ℚ → ℕ → ℕ → ℚ) : DataFrame :=
  jitterPair (jitterDeptStage data cc dc normal)
    "Latitude_Commune" "Longitude_Commune"
    (normal 2 0 (1/1000) (communeMaskCount data cc dc normal))
    (normal 3 0 (1/1000) (communeMaskCount data cc dc normal))

/-- The position among the department-masked rows of row `i`: the number of
masked rows strictly before it, which is the index of the draw that row
receives from each department draw call. -/
def deptJitterIdx (data : DataFrame) (cc dc : Cache) (i : ℕ) : ℕ :=
  trueCount (((enrichStage data cc dc).rows.map
    (fun r => bothNotna "Latitude_Dept" "Longitude_Dept" r)).take i)

/-- The position among the commune-masked rows of row `i`, on the frame
after the department jitter. -/
def communeJitterIdx (data : DataFrame) (cc dc : Cache)
    (normal : ℕ → ℚ → ℚ → ℕ → ℕ → ℚ) (i : ℕ) : ℕ :=
  trueCount (((jitterDeptStage data cc dc normal).rows.map
    (fun r => bothNotna "Latitude_Commune" "Longitude_Commune" r)).take i)

/-- `fillna(0)` on a cell. -/
def fillnaVal : Value → Value
  | Value.null => Value.num 0
  | v => v

/-- `data[col] = data[col].fillna(0)` guarded by column presence
(loader.py lines 155-158). -/
def fillCol (df : DataFrame) (c : String) : DataFrame :=
  if c ∈ df.cols then
    ⟨df.cols, df.rows.map (fun r => setCell r c (fillnaVal (getCell r c)))⟩
  else df

/-- The null-fill stage over the four coordinate columns, in source order. -/
def fillZero (df : DataFrame) : DataFrame :=
  fillCol (fillCol (fillCol (fillCol df "Latitude_Dept") "Longitude_Dept")
    "Latitude_Commune") "Longitude_Commune"

/-- Shallow embedding of `preprocess_data` (loader.py lines 105-160): the
empty-frame early return, the coordinate join, the two jitter blocks, and
the null fill.  `normal` is the numpy draw source, applied to the call
number, the mean, the standard deviation, the requested size, and the draw
index. -/
def preprocess_data (data : DataFrame) (commune_cache dept_cache : Cache)
    (normal : ℕ → ℚ → ℚ → ℕ → ℕ → ℚ) : DataFrame :=
  if data.rows.isEmpty then data
  else fillZero (jitterCommuneStage data commune_cache dept_cache normal)

/-- The value the enrichment writes into the "Latitude_Commune" column for
an input row `r` (loader.py lines 116-122, latitude half). -/
def communeLatOf (cols : List String) (cc : Cache) (r : Row) : Value :=
  if "Libellé de la commune" ∈ cols then
    communeCoord cc (getCell r "Libellé de la commune") true
  else Value.null

/-- The value the enrichment writes into the "Longitude_Commune" column for
an input row `r` (loader.py lines 116-122, longitude half). -/
def communeLonOf (cols : List String) (cc : Cache) (r : Row) : Value :=
  if "Libellé de la commune" ∈ cols then
    communeCoord cc (getCell r "Libellé de la commune") false
  else Value.null

/-- The value the enrichment writes into the "Latitude_Dept" column for an
input row `r` (loader.py lines 124-137, latitude half). -/
def deptLatOf (cols : List String) (dc : Cache) (r : Row) : Value :=
  match dept_column cols with
  | some c => deptCoord dc (getCell r c) true
  | none => Value.null

/-- The value the enrichment writes into the "Longitude_Dept" column for an
input row `r` (loader.py lines 124-137, longitude half). -/
def deptLonOf (cols : List String) (dc : Cache) (r : Row) : Value :=
  match dept_column cols with
  | some c => deptCoord dc (getCell r c) false
  | none => Value.null

/-! ## Spec-side predicates, for refinement comparison -/

/-- Transcribed from the (amended) claim on the equality constraints: a row
survives the equality phase exactly when, for each of the six constraints,
either the constraint is skipped (value empty, or column absent, or - for
the gender constraint only - value equal to "Tous"), or the cell matches
the value.  The conjuncts appear in source order and a skipped constraint
contributes no restriction. -/
def claimEqPred (cols : List String) (fs : Filters) (r : Row) : Bool :=
  ((((((!(fs.nom != "" && cols.contains "ps_activite_nom") ||
        (cellStr (getCell r "ps_activite_nom") == fs.nom)) &&
      (!(fs.prenom != "" && cols.contains "ps_activite_prenom") ||
        (cellStr (getCell r "ps_activite_prenom") == fs.prenom))) &&
      (!((fs.genre != "" && fs.genre != "Tous") &&
          cols.contains "ps_activite_civilite") ||
        (cellStr (getCell r "ps_activite_civilite") == fs.genre))) &&
      (!(fs.ville != "" && cols.contains "coordonnees_ville") ||
        (cellStr (getCell r "coordonnees_ville") == fs.ville))) &&
      (!(fs.code_postal != "" && cols.contains "coordonnees_code_postal") ||
        (cellStr (getCell r "coordonnees_code_postal") == fs.code_postal))) &&
      (!(fs.specialite != "" && cols.contains "type_ps_libelle") ||
        (cellStr (getCell r "type_ps_libelle") == fs.specialite)))

/-- A draw source returning zero for every draw. -/
def zeroDraws : ℕ → ℚ → ℚ → ℕ → ℕ → ℚ := fun _ _ _ _ _ => 0

/-- A draw source returning seven for every draw. -/
def sevenDraws : ℕ → ℚ → ℚ → ℕ → ℕ → ℚ := fun _ _ _ _ _ => 7

/-- A one-row frame keyed by the department label "Ain". -/
def dfAin : DataFrame :=
  ⟨["Libellé du département"], [[("Libellé du département", Value.str "Ain")]]⟩

/-- A one-row frame with a civility column, the single row carrying "M". -/
def dfCivilite : DataFrame :=
  ⟨["ps_activite_civilite"], [[("ps_activite_civilite", Value.str "M")]]⟩

/-- Criteria selecting gender "Tous" and nothing else. -/
def fsTous : Filters := ⟨"", "", "Tous", "", "", "", ""⟩

/-- Criteria with every entry unset. -/
def fsEmpty : Filters := ⟨"", "", "", "", "", "", ""⟩

/-- A one-row frame with a commune label and no department column. -/
def dfCommuneX : DataFrame :=
  ⟨["Libellé de la commune"], [[("Libellé de la commune", Value.str "X")]]⟩

/-- A commune cache resolving the key "X". -/
def ccX : Cache := [("X", (some 1, some 2))]

/-- The row of `dfCommuneX` after the coordinate join. -/
def rowCommuneX : Row :=
  [("Libellé de la commune", Value.str "X"),
   ("Latitude_Commune", Value.num 1), ("Longitude_Commune", Value.num 2),
   ("Latitude_Dept", Value.null), ("Longitude_Dept", Value.null)]

/-- A one-row frame with a section-department label column. -/
def dfSection : DataFrame :=
  ⟨["Libellé de la section départementale"],
   [[("Libellé de la section départementale", Value.str "Ain")]]⟩

/-! ## Lemmas about rows and cells -/

theorem getCell_setCell_same (r : Row) (c : String) (v : Value) :
    getCell (setCell r c v) c = v := by
  induction r with
  | nil => simp [setCell, getCell]
  | cons p t ih =>
    obtain ⟨a, w⟩ := p
    by_cases hac : a = c
    · simp [setCell, hac, getCell]
    · simp [setCell, hac, getCell, ih]

theorem getCell_setCell_ne (r : Row) (c c' : String) (v : Value) (h : c' ≠ c) :
    getCell (setCell r c v) c' = getCell r c' := by
  have h2 : ¬ (c = c') := fun hh => h hh.symm
  induction r with
  | nil => simp [setCell, getCell, h2]
  | cons p t ih =>
    obtain ⟨a, w⟩ := p
    by_cases hac : a = c
    · subst hac
      simp [setCell, getCell, h2]
    · simp [setCell, hac, getCell, ih]

/-! ## Lemmas about the filter engine -/

theorem eqStep_cols (df : DataFrame) (a : Bool) (c v : String) :
    (eqStep df a c v).cols = df.cols := by
  unfold eqStep; split <;> rfl

theorem eqStep_rows (df : DataFrame) (a : Bool) (c v : String) :
    (eqStep df a c v).rows =
      df.rows.filter
        (fun r => !(a && df.cols.contains c) || (cellStr (getCell r c) == v)) := by
  unfold eqStep
  split
  · rename_i h
    simp only [h, Bool.not_true, Bool.false_or]
  · rename_i h
    have h' : (a && df.cols.contains c) = false := by
      cases hh : (a && df.cols.contains c)
      · rfl
      · exact absurd hh h
    simp only [h', Bool.not_false, Bool.true_or]
    exact (List.filter_true df.rows).symm

theorem eqPhase_cols (df : DataFrame) (fs : Filters) :
    (eqPhase df fs).cols = df.cols := by
  simp [eqPhase, eqStep_cols]

theorem eqPhase_rows (df : DataFrame) (fs : Filters) :
    (eqPhase df fs).rows = df.rows.filter (claimEqPred df.cols fs) := by
  unfold eqPhase
  simp only [eqStep_rows, eqStep_cols, List.filter_filter]
  exact List.filter_congr (fun r _ => by
    simp only [claimEqPred, Bool.and_assoc, Bool.and_comm, Bool.and_left_comm])

theorem searchStep_cols (df : DataFrame) (term : String) :
    (searchStep df term).cols = df.cols := by
  unfold searchStep
  split
  · dsimp only
    split <;> rfl
  · rfl

theorem mem_addColName_iff (cols : List String) (c c' : String) :
    c ∈ addColName cols c' ↔ c ∈ cols ∨ c = c' := by
  unfold addColName
  split
  · rename_i h
    constructor
    · exact Or.inl
    · intro hc
      rcases hc with hc | hc
      · exact hc
      · subst hc; exact h
  · simp [List.mem_append]

theorem setCol_cols (df : DataFrame) (c : String) (f : Row → Value) :
    (setCol df c f).cols = addColName df.cols c := rfl

theorem setCol_row (df : DataFrame) (c : String) (f : Row → Value) (i : ℕ) :
    (setCol df c f).rows[i]? = (df.rows[i]?).map (fun r => setCell r c (f r)) := by
  simp [setCol, List.getElem?_map]

theorem dept_column_cases (cols : List String) (c : String)
    (h : dept_column cols = some c) :
    c = "Libellé de la section départementale" ∨
      c = "Libellé du département" := by
  unfold dept_column at h
  split at h
  · exact Or.inl (Option.some.inj h).symm
  · split at h
    · exact Or.inr (Option.some.inj h).symm
    · exact absurd h (by simp)

theorem dept_column_addCommune (cols : List String) :
    dept_column
      (addColName (addColName cols "Latitude_Commune") "Longitude_Commune") =
      dept_column cols := by
  have h1 : ¬ ("Libellé de la section départementale" = "Latitude_Commune") := by
    decide
  have h2 : ¬ ("Libellé de la section départementale" = "Longitude_Commune") := by
    decide
  have h3 : ¬ ("Libellé du département" = "Latitude_Commune") := by decide
  have h4 : ¬ ("Libellé du département" = "Longitude_Commune") := by decide
  unfold dept_column
  simp only [mem_addColName_iff, h1, h2, h3, h4, or_false]

theorem addCommuneCoords_cols (df : DataFrame) (cc : Cache) :
    (addCommuneCoords df cc).cols =
      addColName (addColName df.cols "Latitude_Commune") "Longitude_Commune" := by
  unfold addCommuneCoords
  split <;> rfl

theorem addCommuneCoords_row (df : DataFrame) (cc : Cache) (i : ℕ) (r : Row)
    (hr : df.rows[i]? = some r) :
    (addCommuneCoords df cc).rows[i]? =
      some (setCell (setCell r "Latitude_Commune" (communeLatOf df.cols cc r))
        "Longitude_Commune" (communeLonOf df.cols cc r)) := by
  by_cases hm : "Libellé de la commune" ∈ df.cols
  · have hLat : communeLatOf df.cols cc r =
        communeCoord cc (getCell r "Libellé de la commune") true := by
      rw [communeLatOf, if_pos hm]
    have hLon : communeLonOf df.cols cc r =
        communeCoord cc (getCell r "Libellé de la commune") false := by
      rw [communeLonOf, if_pos hm]
    rw [addCommuneCoords, if_pos hm, setCol_row, setCol_row, hr]
    simp only [Option.map_some']
    rw [getCell_setCell_ne r "Latitude_Commune" "Libellé de la commune" _
      (by decide)]
    rw [hLat, hLon]
  · have hLat : communeLatOf df.cols cc r = Value.null := by
      rw [communeLatOf, if_neg hm]
    have hLon : communeLonOf df.cols cc r = Value.null := by
      rw [communeLonOf, if_neg hm]
    rw [addCommuneCoords, if_neg hm, setCol_row, setCol_row, hr]
    simp only [Option.map_some']
    rw [hLat, hLon]

theorem addDeptCoords_cols (df : DataFrame) (dc : Cache) :
    (addDeptCoords df dc).cols =
      addColName (addColName df.cols "Latitude_Dept") "Longitude_Dept" := by
  unfold addDeptCoords
  split <;> rfl

theorem addDeptCoords_row (df : DataFrame) (dc : Cache) (i : ℕ) (r : Row)
    (hr : df.rows[i]? = some r) :
    (addDeptCoords df dc).rows[i]? =
      some (setCell (setCell r "Latitude_Dept" (deptLatOf df.cols dc r))
        "Longitude_Dept" (deptLonOf df.cols dc r)) := by
  cases hdc : dept_column df.cols with
  | none =>
    have hLat : deptLatOf df.cols dc r = Value.null := by
      unfold deptLatOf; rw [hdc]
    have hLon : deptLonOf df.cols dc r = Value.null := by
      unfold deptLonOf; rw [hdc]
    simp only [addDeptCoords, hdc]
    rw [setCol_row, setCol_row, hr]
    simp only [Option.map_some']
    rw [hLat, hLon]
  | some c =>
    have hcs := dept_column_cases df.cols c hdc
    have hne : c ≠ "Latitude_Dept" := by
      rcases hcs with h | h <;> (subst h; decide)
    have hLat : deptLatOf df.cols dc r = deptCoord dc (getCell r c) true := by
      unfold deptLatOf; rw [hdc]
    have hLon : deptLonOf df.cols dc r = deptCoord dc (getCell r c) false := by
      unfold deptLonOf; rw [hdc]
    simp only [addDeptCoords, hdc]
    rw [setCol_row, setCol_row, hr]
    simp only [Option.map_some']
    rw [getCell_setCell_ne r "Latitude_Dept" c _ hne]
    rw [hLat, hLon]

theorem enrich_row (data : DataFrame) (cc dc : Cache) (i : ℕ) (r : Row)
    (hr : data.rows[i]? = some r) :
    (enrichStage data cc dc).rows[i]? =
      some (setCell (setCell (setCell (setCell r
        "Latitude_Commune" (communeLatOf data.cols cc r))
        "Longitude_Commune" (communeLonOf data.cols cc r))
        "Latitude_Dept" (deptLatOf data.cols dc r))
        "Longitude_Dept" (deptLonOf data.cols dc r)) := by
  have h1 := addCommuneCoords_row data cc i r hr
  have h2 := addDeptCoords_row (addCommuneCoords data cc) dc i
    (setCell (setCell r "Latitude_Commune" (communeLatOf data.cols cc r))
      "Longitude_Commune" (communeLonOf data.cols cc r)) h1
  have hcols : dept_column (addCommuneCoords data cc).cols =
      dept_column data.cols := by
    rw [addCommuneCoords_cols]; exact dept_column_addCommune data.cols
  have hget : ∀ c, c ≠ "Longitude_Commune" → c ≠ "Latitude_Commune" →
      getCell (setCell (setCell r
        "Latitude_Commune" (communeLatOf data.cols cc r))
        "Longitude_Commune" (communeLonOf data.cols cc r)) c = getCell r c := by
    intro c hne1 hne2
    rw [getCell_setCell_ne _ _ _ _ hne1, getCell_setCell_ne _ _ _ _ hne2]
  have hLat : deptLatOf (addCommuneCoords data cc).cols dc
      (setCell (setCell r "Latitude_Commune" (communeLatOf data.cols cc r))
        "Longitude_Commune" (communeLonOf data.cols cc r)) =
      deptLatOf data.cols dc r := by
    unfold deptLatOf
    rw [hcols]
    cases hdc : dept_column data.cols with
    | none => rfl
    | some c =>
      have hcs := dept_column_cases data.cols c hdc
      have hne1 : c ≠ "Longitude_Commune" := by
        rcases hcs with h | h <;> (subst h; decide)
      have hne2 : c ≠ "Latitude_Commune" := by
        rcases hcs with h | h <;> (subst h; decide)
      exact congrArg (fun v => deptCoord dc v true) (hget c hne1 hne2)
  have hLon : deptLonOf (addCommuneCoords data cc).cols dc
      (setCell (setCell r "Latitude_Commune" (communeLatOf data.cols cc r))
        "Longitude_Commune" (communeLonOf data.cols cc r)) =
      deptLonOf data.cols dc r := by
    unfold deptLonOf
    rw [hcols]
    cases hdc : dept_column data.cols with
    | none => rfl
    | some c =>
      have hcs := dept_column_cases data.cols c hdc
      have hne1 : c ≠ "Longitude_Commune" := by
        rcases hcs with h | h <;> (subst h; decide)
      have hne2 : c ≠ "Latitude_Commune" := by
        rcases hcs with h | h <;> (subst h; decide)
      exact congrArg (fun v => deptCoord dc v false) (hget c hne1 hne2)
  unfold enrichStage
  rw [h2, hLat, hLon]

theorem enrich_cols (data : DataFrame) (cc dc : Cache) :
    (enrichStage data cc dc).cols =
      addColName (addColName (addColName (addColName data.cols
        "Latitude_Commune") "Longitude_Commune") "Latitude_Dept")
        "Longitude_Dept" := by
  unfold enrichStage
  rw [addDeptCoords_cols, addCommuneCoords_cols]

/-! ## Lemmas about the jitter and fill stages -/

theorem addNoise_get (c : String) (draw : ℕ → ℚ) :
    ∀ (rows : List Row) (flags : List Bool) (k i : ℕ),
      (addNoise rows flags c draw k)[i]? =
        (rows[i]?).map (fun r =>
          if (flags[i]?).getD false then
            setCell r c (valAdd (getCell r c)
              (draw (k + trueCount (flags.take i))))
          else r) := by
  intro rows
  induction rows with
  | nil => intro flags k i; simp [addNoise]
  | cons r rs ih =>
    intro flags k i
    cases flags with
    | nil => simp [addNoise]
    | cons b bs =>
      cases i with
      | zero => cases b <;> simp [addNoise, trueCount]
      | succ n =>
        cases b with
        | false =>
          have key : addNoise (r :: rs) (false :: bs) c draw k =
              r :: addNoise rs bs c draw k := by simp [addNoise]
          rw [key, List.getElem?_cons_succ, ih bs k n]
          simp only [List.getElem?_cons_succ, List.take_succ_cons, trueCount,
            Nat.zero_add, if_neg (Bool.false_ne_true), Nat.add_zero]
        | true =>
          have key : addNoise (r :: rs) (true :: bs) c draw k =
              setCell r c (valAdd (getCell r c) (draw k)) ::
                addNoise rs bs c draw (k + 1) := by simp [addNoise]
          rw [key, List.getElem?_cons_succ, ih bs (k + 1) n]
          simp only [List.getElem?_cons_succ, List.take_succ_cons, trueCount,
            if_pos trivial, Nat.add_assoc, if_true]

theorem jitterPair_cols (df : DataFrame) (latCol lonCol : String)
    (latDraw lonDraw : ℕ → ℚ) :
    (jitterPair df latCol lonCol latDraw lonDraw).cols = df.cols := by
  unfold jitterPair
  split
  · dsimp only
    split <;> rfl
  · rfl

theorem jitterPair_row (df : DataFrame) (latCol lonCol : String)
    (latDraw lonDraw : ℕ → ℚ) (i : ℕ) (r : Row) (hr : df.rows[i]? = some r)
    (hne : latCol ≠ lonCol) :
    (jitterPair df latCol lonCol latDraw lonDraw).rows[i]? =
      some (if bothNotna latCol lonCol r then
        (if latCol ∈ df.cols ∧ lonCol ∈ df.cols then
          setCell (setCell r latCol (valAdd (getCell r latCol)
            (latDraw (trueCount ((df.rows.map
              (fun r => bothNotna latCol lonCol r)).take i)))))
            lonCol (valAdd (getCell r lonCol)
            (lonDraw (trueCount ((df.rows.map
              (fun r => bothNotna latCol lonCol r)).take i))))
        else r)
      else r) := by
  have hflag : (df.rows.map (fun r => bothNotna latCol lonCol r))[i]? =
      some (bothNotna latCol lonCol r) := by
    rw [List.getElem?_map, hr]; rfl
  unfold jitterPair
  by_cases hmem : latCol ∈ df.cols ∧ lonCol ∈ df.cols
  · rw [if_pos hmem]
    dsimp only
    by_cases hany : ((df.rows.map (fun r => bothNotna latCol lonCol r)).any
        (fun b => b)) = true
    · rw [if_pos hany]
      show (addNoise (addNoise df.rows _ latCol latDraw 0) _ lonCol lonDraw 0)[i]?
        = _
      rw [addNoise_get, addNoise_get, hr]
      simp only [Option.map_some', hflag]
      cases hb : bothNotna latCol lonCol r with
      | false =>
        simp only [Option.getD_some, Bool.false_eq_true, if_neg, hb,
          if_neg (Bool.false_ne_true)]
        simp [hb]
      | true =>
        simp only [Option.getD_some, hb, if_pos trivial, if_true]
        rw [getCell_setCell_ne r latCol lonCol _ (Ne.symm hne)]
        simp [hmem, Nat.zero_add]
    · rw [if_neg hany]
      have hb : bothNotna latCol lonCol r = false := by
        cases hbb : bothNotna latCol lonCol r
        · rfl
        · exfalso
          apply hany
          rw [List.any_eq_true]
          refine ⟨bothNotna latCol lonCol r, ?_, hbb⟩
          obtain ⟨hi, hgi⟩ := List.getElem?_eq_some.mp hflag
          exact hgi ▸ List.getElem_mem hi
      rw [hr, hb]
      simp
  · rw [if_neg hmem, hr]
    cases hb : bothNotna latCol lonCol r <;> simp [hmem, hb]

theorem fillCol_cols (df : DataFrame) (c : String) :
    (fillCol df c).cols = df.cols := by
  unfold fillCol; split <;> rfl

theorem fillCol_row (df : DataFrame) (c : String) (i : ℕ) (r : Row)
    (hr : df.rows[i]? = some r) (hc : c ∈ df.cols) :
    (fillCol df c).rows[i]? = some (setCell r c (fillnaVal (getCell r c))) := by
  unfold fillCol
  rw [if_pos hc]
  simp [List.getElem?_map, hr]

theorem fillZero_cols (df : DataFrame) : (fillZero df).cols = df.cols := by
  unfold fillZero
  simp [fillCol_cols]

theorem fillZero_row (df : DataFrame) (i : ℕ) (r : Row)
    (hr : df.rows[i]? = some r)
    (h1 : "Latitude_Dept" ∈ df.cols) (h2 : "Longitude_Dept" ∈ df.cols)
    (h3 : "Latitude_Commune" ∈ df.cols) (h4 : "Longitude_Commune" ∈ df.cols) :
    (fillZero df).rows[i]? =
      some (setCell (setCell (setCell (setCell r
        "Latitude_Dept" (fillnaVal (getCell r "Latitude_Dept")))
        "Longitude_Dept" (fillnaVal (getCell r "Longitude_Dept")))
        "Latitude_Commune" (fillnaVal (getCell r "Latitude_Commune")))
        "Longitude_Commune" (fillnaVal (getCell r "Longitude_Commune"))) := by
  have e1 := fillCol_row df "Latitude_Dept" i r hr h1
  have e2 := fillCol_row (fillCol df "Latitude_Dept") "Longitude_Dept" i _ e1
    (by rw [fillCol_cols]; exact h2)
  rw [getCell_setCell_ne r "Latitude_Dept" "Longitude_Dept" _ (by decide)]
    at e2
  have e3 := fillCol_row (fillCol (fillCol df "Latitude_Dept")
    "Longitude_Dept") "Latitude_Commune" i _ e2
    (by rw [fillCol_cols, fillCol_cols]; exact h3)
  rw [getCell_setCell_ne _ "Longitude_Dept" "Latitude_Commune" _ (by decide),
    getCell_setCell_ne r "Latitude_Dept" "Latitude_Commune" _ (by decide)]
    at e3
  have e4 := fillCol_row (fillCol (fillCol (fillCol df "Latitude_Dept")
    "Longitude_Dept") "Latitude_Commune") "Longitude_Commune" i _ e3
    (by rw [fillCol_cols, fillCol_cols, fillCol_cols]; exact h4)
  rw [getCell_setCell_ne _ "Latitude_Commune" "Longitude_Commune" _
      (by decide),
    getCell_setCell_ne _ "Longitude_Dept" "Longitude_Commune" _ (by decide),
    getCell_setCell_ne r "Latitude_Dept" "Longitude_Commune" _ (by decide)]
    at e4
  exact e4

theorem jitter_unresolved_id (df : DataFrame) (latCol lonCol : String)
    (latDraw lonDraw : ℕ → ℚ) (i : ℕ) (r : Row) (hr : df.rows[i]? = some r)
    (hne : latCol ≠ lonCol) (hb : bothNotna latCol lonCol r = false) :
    (jitterPair df latCol lonCol latDraw lonDraw).rows[i]? = some r := by
  rw [jitterPair_row df latCol lonCol latDraw lonDraw i r hr hne]
  simp [hb]

theorem jitter_preserves_two (df : DataFrame) (latCol lonCol : String)
    (latDraw lonDraw : ℕ → ℚ) (i : ℕ) (r : Row) (hr : df.rows[i]? = some r)
    (hne : latCol ≠ lonCol) (c1 c2 : String)
    (h11 : c1 ≠ latCol) (h12 : c1 ≠ lonCol)
    (h21 : c2 ≠ latCol) (h22 : c2 ≠ lonCol) :
    ∃ r2, (jitterPair df latCol lonCol latDraw lonDraw).rows[i]? = some r2 ∧
      getCell r2 c1 = getCell r c1 ∧ getCell r2 c2 = getCell r c2 := by
  rw [jitterPair_row df latCol lonCol latDraw lonDraw i r hr hne]
  refine ⟨_, rfl, ?_, ?_⟩ <;>
  · by_cases hb : bothNotna latCol lonCol r = true
    · by_cases hm : latCol ∈ df.cols ∧ lonCol ∈ df.cols
      · simp only [hb, if_pos trivial, if_true, if_pos hm]
        first
        | rw [getCell_setCell_ne _ _ _ _ h12, getCell_setCell_ne _ _ _ _ h11]
        | rw [getCell_setCell_ne _ _ _ _ h22, getCell_setCell_ne _ _ _ _ h21]
      · simp [hb, hm]
    · have hb' : bothNotna latCol lonCol r = false := by
        cases hbb : bothNotna latCol lonCol r
        · rfl
        · exact absurd hbb hb
      simp [hb']

theorem jitterCommuneStage_cols (data : DataFrame) (cc dc : Cache)
    (normal : ℕ → ℚ → ℚ → ℕ → ℕ → ℚ) :
    (jitterCommuneStage data cc dc normal).cols =
      (enrichStage data cc dc).cols := by
  unfold jitterCommuneStage jitterDeptStage
  rw [jitterPair_cols, jitterPair_cols]

theorem enrich_mem_four (data : DataFrame) (cc dc : Cache) :
    "Latitude_Dept" ∈ (enrichStage data cc dc).cols ∧
    "Longitude_Dept" ∈ (enrichStage data cc dc).cols ∧
    "Latitude_Commune" ∈ (enrichStage data cc dc).cols ∧
    "Longitude_Commune" ∈ (enrichStage data cc dc).cols := by
  rw [enrich_cols]
  simp [mem_addColName_iff]

theorem fillZero_cells (df : DataFrame) (i : ℕ) (r : Row)
    (hr : df.rows[i]? = some r)
    (h1 : "Latitude_Dept" ∈ df.cols) (h2 : "Longitude_Dept" ∈ df.cols)
    (h3 : "Latitude_Commune" ∈ df.cols) (h4 : "Longitude_Commune" ∈ df.cols) :
    ∃ r2, (fillZero df).rows[i]? = some r2 ∧
      getCell r2 "Latitude_Dept" = fillnaVal (getCell r "Latitude_Dept") ∧
      getCell r2 "Longitude_Dept" = fillnaVal (getCell r "Longitude_Dept") ∧
      getCell r2 "Latitude_Commune" =
        fillnaVal (getCell r "Latitude_Commune") ∧
      getCell r2 "Longitude_Commune" =
        fillnaVal (getCell r "Longitude_Commune") := by
  refine ⟨_, fillZero_row df i r hr h1 h2 h3 h4, ?_, ?_, ?_, ?_⟩
  · rw [getCell_setCell_ne _ _ _ _ (by decide),
      getCell_setCell_ne _ _ _ _ (by decide),
      getCell_setCell_ne _ _ _ _ (by decide), getCell_setCell_same]
  · rw [getCell_setCell_ne _ _ _ _ (by decide),
      getCell_setCell_ne _ _ _ _ (by decide), getCell_setCell_same]
  · rw [getCell_setCell_ne _ _ _ _ (by decide), getCell_setCell_same]
  · rw [getCell_setCell_same]

/-- Claim C2 (code_bug): the claim and the spec say that on timeout, on HTTP
error, and on any other exception `load_data` returns an empty table; in the
source only the generic branch returns `pd.DataFrame()`, while the timeout
and HTTP-error branches fall off the end of the function and return `None`,
a non-table value, contradicting the declared return type
`-> pd.DataFrame`. -/
theorem C2_load_data_failure_values :
    (load_data FetchOutcome.timeout).fst = PyVal.pyNone ∧
    (load_data (FetchOutcome.httpError "500 Server Error")).fst =
      PyVal.pyNone ∧
    (load_data (FetchOutcome.exc "boom")).fst = PyVal.value emptyDataFrame ∧
    (PyVal.pyNone : PyVal DataFrame) ≠ PyVal.value emptyDataFrame :=
  ⟨rfl, rfl, rfl, by decide⟩

/-- Claim C3 (code_bug): the claim says no exception escapes a core pipeline
operation into the top-level caller, but `main` (src/app.py line 29) calls
`preprocess_data` with two arguments where three are required, so every
execution of the data-loading phase of `main` raises `TypeError` into the
presentation layer, for every fetch outcome and every cache-load outcome. -/
theorem C3_main_phase_raises (o : FetchOutcome) (co : CacheLoadOutcome) :
    main_load_phase o co =
      Except.error (PyError.typeError
        "preprocess_data() missing 1 required positional argument: dept_cache") :=
  rfl

/-- Claim C7 counterexample: with the table carrying a civility column whose
single row holds "M", and criteria whose gender entry is the non-empty value
"Tous", the gender column exists and the row does not match the value, yet
the filter removes nothing - so the equality constraint is not applied even
though the caller supplied a non-empty value and the column exists,
refuting the claimed "if and only if". -/
theorem C7_counterexample :
    fsTous.genre ≠ "" ∧ "ps_activite_civilite" ∈ dfCivilite.cols ∧
    cellStr (getCell [("ps_activite_civilite", Value.str "M")]
      "ps_activite_civilite") ≠ fsTous.genre ∧
    filter_data dfCivilite fsTous = dfCivilite := by decide

/-- Claim C7 (corrected): each equality constraint other than gender is
applied exactly when the caller supplied a non-empty value and the column
exists; the gender constraint is additionally skipped when its value is
"Tous"; a skipped constraint imposes no restriction, and in particular an
empty-string value is always skipped.  Formally, the filter engine equals
the search step applied to the rows surviving `claimEqPred`, which
transcribes exactly that reading. -/
theorem C7_eqPhase_characterization (df : DataFrame) (fs : Filters) :
    filter_data df fs =
      searchStep ⟨df.cols, df.rows.filter (claimEqPred df.cols fs)⟩
        fs.search_term := by
  unfold filter_data
  have h : eqPhase df fs =
      ⟨df.cols, df.rows.filter (claimEqPred df.cols fs)⟩ := by
    rw [← eqPhase_rows df fs, ← eqPhase_cols df fs]
  rw [h]

/-- Claim C9 (confirmed): the filter engine applied with wholly empty
criteria returns the input table unchanged - same rows, same order, same
cells; the embedding is pure (the source filters a copy), so the input is
never mutated. -/
theorem C9_empty_criteria_identity (df : DataFrame) :
    filter_data df fsEmpty = df := rfl

/-- Claim C10 (confirmed): the gender constraint is skipped when its value
is the literal "Tous" exactly as when it is unset: for every table and
criteria, filtering with gender "Tous" gives the same result as filtering
with the gender entry empty, so no row is removed on gender. -/
theorem C10_genre_tous_skipped (df : DataFrame) (n p v cp s st : String) :
    filter_data df ⟨n, p, "Tous", v, cp, s, st⟩ =
      filter_data df ⟨n, p, "", v, cp, s, st⟩ := rfl

/-- Claim C1 counterexample: the settings table stores the pair
("Ain", (46.0667, 5.3333)); on a cache hit for "Ain" the enrichment writes
the pair's FIRST element 46.0667 into the latitude column, and 46.0667
differs from the second element 5.3333 - refuting the claim that the output
latitude field equals the pair's second element. -/
theorem C1_counterexample :
    cacheFind DEFAULT_DEPT_COORDS "Ain" =
      some (some ((460667 : ℚ)/10000), some ((53333 : ℚ)/10000)) ∧
    ((enrichStage dfAin [] DEFAULT_DEPT_COORDS).rows[0]?).map
      (fun r => getCell r "Latitude_Dept") =
        some (Value.num ((460667 : ℚ)/10000)) ∧
    ((enrichStage dfAin [] DEFAULT_DEPT_COORDS).rows[0]?).map
      (fun r => getCell r "Longitude_Dept") =
        some (Value.num ((53333 : ℚ)/10000)) ∧
    ((460667 : ℚ)/10000) ≠ ((53333 : ℚ)/10000) :=
  ⟨rfl, rfl, rfl, by norm_num⟩

/-- Claim C1 (corrected): for every row whose geographic key hits the
coordinate cache (commune or department), the enrichment treats the cached
pair's first element as the latitude and its second element as the
longitude, so the row's output latitude field equals the pair's first
element and the output longitude field equals the pair's second element. -/
theorem C1_cache_hit_order (data : DataFrame) (cc dc : Cache) (i : ℕ)
    (r : Row) (v : Value) (c : String) (p q : Option ℚ × Option ℚ)
    (hr : data.rows[i]? = some r) :
    ("Libellé de la commune" ∈ data.cols →
      getCell r "Libellé de la commune" = v → v ≠ Value.null →
      cacheFind cc (cellStr v) = some p →
      ∃ r2, (enrichStage data cc dc).rows[i]? = some r2 ∧
        getCell r2 "Latitude_Commune" = optVal p.fst ∧
        getCell r2 "Longitude_Commune" = optVal p.snd) ∧
    (∀ s, dept_column data.cols = some c → getCell r c = Value.str s →
      cacheFind dc s = some q →
      ∃ r2, (enrichStage data cc dc).rows[i]? = some r2 ∧
        getCell r2 "Latitude_Dept" = optVal q.fst ∧
        getCell r2 "Longitude_Dept" = optVal q.snd) := by
  constructor
  · intro hm hv hvn hp
    have hcl : communeLatOf data.cols cc r = optVal p.fst := by
      rw [communeLatOf, if_pos hm, hv]
      cases v with
      | null => exact absurd rfl hvn
      | str s => simp [communeCoord, cacheGet, hp]
      | num q0 => simp [communeCoord, cacheGet, hp]
    have hco : communeLonOf data.cols cc r = optVal p.snd := by
      rw [communeLonOf, if_pos hm, hv]
      cases v with
      | null => exact absurd rfl hvn
      | str s => simp [communeCoord, cacheGet, hp]
      | num q0 => simp [communeCoord, cacheGet, hp]
    refine ⟨_, enrich_row data cc dc i r hr, ?_, ?_⟩
    · rw [getCell_setCell_ne _ _ _ _ (by decide),
        getCell_setCell_ne _ _ _ _ (by decide),
        getCell_setCell_ne _ _ _ _ (by decide), getCell_setCell_same, hcl]
    · rw [getCell_setCell_ne _ _ _ _ (by decide),
        getCell_setCell_ne _ _ _ _ (by decide), getCell_setCell_same, hco]
  · intro s hdc hs hq
    have hdl : deptLatOf data.cols dc r = optVal q.fst := by
      unfold deptLatOf
      rw [hdc]
      show deptCoord dc (getCell r c) true = optVal q.fst
      rw [hs]
      simp [deptCoord, cacheGet, hq]
    have hdo : deptLonOf data.cols dc r = optVal q.snd := by
      unfold deptLonOf
      rw [hdc]
      show deptCoord dc (getCell r c) false = optVal q.snd
      rw [hs]
      simp [deptCoord, cacheGet, hq]
    refine ⟨_, enrich_row data cc dc i r hr, ?_, ?_⟩
    · rw [getCell_setCell_ne _ _ _ _ (by decide), getCell_setCell_same, hdl]
    · rw [getCell_setCell_same, hdo]

/-- Claim C1 witness: on the one-row commune frame keyed "X" with cache
entry (1, 2) the enriched row carries commune latitude 1 and longitude 2;
on the one-row department frame keyed "Ain" with the default department
cache the enriched row carries department latitude 46.0667 and longitude
5.3333 - the pair's first and second elements respectively. -/
theorem C1_witness :
    (∃ r2, (enrichStage dfCommuneX ccX []).rows[0]? = some r2 ∧
      getCell r2 "Latitude_Commune" = optVal (some 1) ∧
      getCell r2 "Longitude_Commune" = optVal (some 2)) ∧
    (∃ r2, (enrichStage dfAin [] DEFAULT_DEPT_COORDS).rows[0]? = some r2 ∧
      getCell r2 "Latitude_Dept" = optVal (some ((460667 : ℚ)/10000)) ∧
      getCell r2 "Longitude_Dept" = optVal (some ((53333 : ℚ)/10000))) :=
  ⟨(C1_cache_hit_order dfCommuneX ccX [] 0
      [("Libellé de la commune", Value.str "X")] (Value.str "X") ""
      (some 1, some 2) (none, none) rfl).1
      (by decide) rfl (by decide) rfl,
   (C1_cache_hit_order dfAin [] DEFAULT_DEPT_COORDS 0
      [("Libellé du département", Value.str "Ain")] Value.null
      "Libellé du département" (none, none)
      (some ((460667 : ℚ)/10000), some ((53333 : ℚ)/10000)) rfl).2
      "Ain" (by decide) rfl rfl⟩

/-- Claim C6 (confirmed): the schema adapter prefers the section-department
label column, falls back to the plain department label column, and when a
department key column is selected the department coordinate cells come from
that column; when neither marker column is present the department
coordinate fields of every enriched row are null. -/
theorem C6_dept_column_priority (data : DataFrame) (cc dc : Cache) :
    ("Libellé de la section départementale" ∈ data.cols →
      dept_column data.cols = some "Libellé de la section départementale") ∧
    ("Libellé de la section départementale" ∉ data.cols →
      "Libellé du département" ∈ data.cols →
      dept_column data.cols = some "Libellé du département") ∧
    (∀ c, dept_column data.cols = some c → ∀ (i : ℕ) (r r2 : Row),
      data.rows[i]? = some r →
      (enrichStage data cc dc).rows[i]? = some r2 →
      getCell r2 "Latitude_Dept" = deptCoord dc (getCell r c) true ∧
      getCell r2 "Longitude_Dept" = deptCoord dc (getCell r c) false) ∧
    (dept_column data.cols = none → ∀ (i : ℕ) (r r2 : Row),
      data.rows[i]? = some r →
      (enrichStage data cc dc).rows[i]? = some r2 →
      getCell r2 "Latitude_Dept" = Value.null ∧
      getCell r2 "Longitude_Dept" = Value.null) := by
  refine ⟨?_, ?_, ?_, ?_⟩
  · intro h
    rw [dept_column, if_pos h]
  · intro h1 h2
    rw [dept_column, if_neg h1, if_pos h2]
  · intro c hdc i r r2 hr hr2
    have he := enrich_row data cc dc i r hr
    rw [hr2] at he
    have hrr := Option.some.inj he
    subst hrr
    have hdl : deptLatOf data.cols dc r = deptCoord dc (getCell r c) true := by
      unfold deptLatOf; rw [hdc]
    have hdo : deptLonOf data.cols dc r =
        deptCoord dc (getCell r c) false := by
      unfold deptLonOf; rw [hdc]
    constructor
    · rw [getCell_setCell_ne _ _ _ _ (by decide), getCell_setCell_same, hdl]
    · rw [getCell_setCell_same, hdo]
  · intro hdc i r r2 hr hr2
    have he := enrich_row data cc dc i r hr
    rw [hr2] at he
    have hrr := Option.some.inj he
    subst hrr
    have hdl : deptLatOf data.cols dc r = Value.null := by
      unfold deptLatOf; rw [hdc]
    have hdo : deptLonOf data.cols dc r = Value.null := by
      unfold deptLonOf; rw [hdc]
    constructor
    · rw [getCell_setCell_ne _ _ _ _ (by decide), getCell_setCell_same, hdl]
    · rw [getCell_setCell_same, hdo]

/-- Claim C6 witness: the section label column wins on a frame carrying it,
the plain department label column is selected on the Ain frame, and on the
commune-only frame (neither marker) the enriched row has null department
coordinates. -/
theorem C6_witness :
    dept_column dfSection.cols =
      some "Libellé de la section départementale" ∧
    dept_column dfAin.cols = some "Libellé du département" ∧
    (getCell rowCommuneX "Latitude_Dept" = Value.null ∧
     getCell rowCommuneX "Longitude_Dept" = Value.null) :=
  ⟨(C6_dept_column_priority dfSection [] []).1 (by decide),
   (C6_dept_column_priority dfAin [] []).2.1 (by decide) (by decide),
   (C6_dept_column_priority dfCommuneX ccX []).2.2.2 rfl 0
     [("Libellé de la commune", Value.str "X")] rowCommuneX rfl rfl⟩

/-- Claim C4 (confirmed): for every row of the enriched output, a coordinate
pair (department-level or commune-level) that is unresolved - both
components null - before the jitter step equals exactly (0, 0) after the
pipeline completes: the jitter mask skips it, and the final null fill sets
both components to zero, never only one of them. -/
theorem C4_unresolved_becomes_zero (data : DataFrame) (cc dc : Cache)
    (normal : ℕ → ℚ → ℚ → ℕ → ℕ → ℚ) (latCol lonCol : String) (i : ℕ)
    (r : Row)
    (hpair : (latCol = "Latitude_Dept" ∧ lonCol = "Longitude_Dept") ∨
             (latCol = "Latitude_Commune" ∧ lonCol = "Longitude_Commune"))
    (hne : data.rows.isEmpty = false)
    (hr : (enrichStage data cc dc).rows[i]? = some r)
    (hlat : getCell r latCol = Value.null)
    (hlon : getCell r lonCol = Value.null) :
    ∃ r2, (preprocess_data data cc dc normal).rows[i]? = some r2 ∧
      getCell r2 latCol = Value.num 0 ∧ getCell r2 lonCol = Value.num 0 := by
  have hpre : preprocess_data data cc dc normal =
      fillZero (jitterCommuneStage data cc dc normal) := by
    unfold preprocess_data
    rw [if_neg (by simp [hne])]
  have hmem := enrich_mem_four data cc dc
  have hm1 : "Latitude_Dept" ∈ (jitterCommuneStage data cc dc normal).cols := by
    rw [jitterCommuneStage_cols]; exact hmem.1
  have hm2 : "Longitude_Dept" ∈ (jitterCommuneStage data cc dc normal).cols := by
    rw [jitterCommuneStage_cols]; exact hmem.2.1
  have hm3 : "Latitude_Commune" ∈ (jitterCommuneStage data cc dc normal).cols := by
    rw [jitterCommuneStage_cols]; exact hmem.2.2.1
  have hm4 : "Longitude_Commune" ∈ (jitterCommuneStage data cc dc normal).cols := by
    rw [jitterCommuneStage_cols]; exact hmem.2.2.2
  rcases hpair with ⟨h1, h2⟩ | ⟨h1, h2⟩
  · subst h1; subst h2
    have hb : bothNotna "Latitude_Dept" "Longitude_Dept" r = false := by
      simp [bothNotna, hlat, notna]
    have h3 : (jitterDeptStage data cc dc normal).rows[i]? = some r :=
      jitter_unresolved_id (enrichStage data cc dc) "Latitude_Dept"
        "Longitude_Dept" _ _ i r hr (by decide) hb
    obtain ⟨r4, hr4, hp1, hp2⟩ := jitter_preserves_two
      (jitterDeptStage data cc dc normal) "Latitude_Commune"
      "Longitude_Commune"
      (normal 2 0 (1/1000) (communeMaskCount data cc dc normal))
      (normal 3 0 (1/1000) (communeMaskCount data cc dc normal))
      i r h3 (by decide) "Latitude_Dept" "Longitude_Dept"
      (by decide) (by decide) (by decide) (by decide)
    have hr4' : (jitterCommuneStage data cc dc normal).rows[i]? = some r4 :=
      hr4
    obtain ⟨r5, hr5, e1, e2, e3, e4⟩ := fillZero_cells
      (jitterCommuneStage data cc dc normal) i r4 hr4' hm1 hm2 hm3 hm4
    refine ⟨r5, by rw [hpre]; exact hr5, ?_, ?_⟩
    · rw [e1, hp1, hlat]; rfl
    · rw [e2, hp2, hlon]; rfl
  · subst h1; subst h2
    obtain ⟨r3, hr3, hp1, hp2⟩ := jitter_preserves_two
      (enrichStage data cc dc) "Latitude_Dept" "Longitude_Dept"
      (normal 0 0 (5/100) (deptMaskCount data cc dc))
      (normal 1 0 (5/100) (deptMaskCount data cc dc))
      i r hr (by decide) "Latitude_Commune" "Longitude_Commune"
      (by decide) (by decide) (by decide) (by decide)
    have hr3' : (jitterDeptStage data cc dc normal).rows[i]? = some r3 := hr3
    have hb : bothNotna "Latitude_Commune" "Longitude_Commune" r3 = false := by
      simp [bothNotna, hp1, hlat, notna]
    have h4 : (jitterCommuneStage data cc dc normal).rows[i]? = some r3 :=
      jitter_unresolved_id (jitterDeptStage data cc dc normal)
        "Latitude_Commune" "Longitude_Commune" _ _ i r3 hr3' (by decide) hb
    obtain ⟨r5, hr5, e1, e2, e3, e4⟩ := fillZero_cells
      (jitterCommuneStage data cc dc normal) i r3 h4 hm1 hm2 hm3 hm4
    refine ⟨r5, by rw [hpre]; exact hr5, ?_, ?_⟩
    · rw [e3, hp1, hlat]; rfl
    · rw [e4, hp2, hlon]; rfl

/-- Claim C4 witness: on the one-row commune frame the department pair is
unresolved before jitter, and after the full pipeline (with a non-zero draw
source) the department pair of the output row is exactly (0, 0). -/
theorem C4_witness :
    ∃ r2, (preprocess_data dfCommuneX ccX [] sevenDraws).rows[0]? = some r2 ∧
      getCell r2 "Latitude_Dept" = Value.num 0 ∧
      getCell r2 "Longitude_Dept" = Value.num 0 :=
  C4_unresolved_becomes_zero dfCommuneX ccX [] sevenDraws "Latitude_Dept"
    "Longitude_Dept" 0 rowCommuneX (Or.inl ⟨rfl, rfl⟩) rfl rfl rfl rfl

/-- Claim C5 (confirmed): jitter is added only to rows whose resolved pair
has both components non-null; a masked row receives draws taken from
`np.random.normal` with mean 0 and standard deviation 5/100 (0.05) for the
department pair and 1/1000 (0.001) for the commune pair, while a row with
an unresolved pair passes through the jitter stage unchanged (its null
components remain null at this stage); the null fill runs only after both
jitter blocks. -/
theorem C5_jitter_granularity (data : DataFrame) (cc dc : Cache)
    (normal : ℕ → ℚ → ℚ → ℕ → ℕ → ℚ) (i : ℕ) (r : Row)
    (hr : (enrichStage data cc dc).rows[i]? = some r) :
    (bothNotna "Latitude_Dept" "Longitude_Dept" r = false →
      (jitterDeptStage data cc dc normal).rows[i]? = some r) ∧
    (bothNotna "Latitude_Dept" "Longitude_Dept" r = true →
      (jitterDeptStage data cc dc normal).rows[i]? =
        some (setCell (setCell r "Latitude_Dept"
          (valAdd (getCell r "Latitude_Dept")
            (normal 0 0 (5/100) (deptMaskCount data cc dc)
              (deptJitterIdx data cc dc i))))
          "Longitude_Dept"
          (valAdd (getCell r "Longitude_Dept")
            (normal 1 0 (5/100) (deptMaskCount data cc dc)
              (deptJitterIdx data cc dc i))))) ∧
    (∀ r3, (jitterDeptStage data cc dc normal).rows[i]? = some r3 →
      (bothNotna "Latitude_Commune" "Longitude_Commune" r3 = false →
        (jitterCommuneStage data cc dc normal).rows[i]? = some r3) ∧
      (bothNotna "Latitude_Commune" "Longitude_Commune" r3 = true →
        (jitterCommuneStage data cc dc normal).rows[i]? =
          some (setCell (setCell r3 "Latitude_Commune"
            (valAdd (getCell r3 "Latitude_Commune")
              (normal 2 0 (1/1000) (communeMaskCount data cc dc normal)
                (communeJitterIdx data cc dc normal i))))
            "Longitude_Commune"
            (valAdd (getCell r3 "Longitude_Commune")
              (normal 3 0 (1/1000) (communeMaskCount data cc dc normal)
                (communeJitterIdx data cc dc normal i)))))) ∧
    (data.rows.isEmpty = false →
      preprocess_data data cc dc normal =
        fillZero (jitterCommuneStage data cc dc normal)) := by
  have hmem := enrich_mem_four data cc dc
  refine ⟨?_, ?_, ?_, ?_⟩
  · intro hb
    exact jitter_unresolved_id (enrichStage data cc dc) "Latitude_Dept"
      "Longitude_Dept" _ _ i r hr (by decide) hb
  · intro hb
    have h := jitterPair_row (enrichStage data cc dc) "Latitude_Dept"
      "Longitude_Dept"
      (normal 0 0 (5/100) (deptMaskCount data cc dc))
      (normal 1 0 (5/100) (deptMaskCount data cc dc))
      i r hr (by decide)
    unfold jitterDeptStage deptJitterIdx
    rw [h, if_pos hb, if_pos ⟨hmem.1, hmem.2.1⟩]
  · intro r3 hr3
    have hmemD : "Latitude_Commune" ∈
        (jitterDeptStage data cc dc normal).cols ∧
        "Longitude_Commune" ∈ (jitterDeptStage data cc dc normal).cols := by
      unfold jitterDeptStage
      rw [jitterPair_cols]
      exact ⟨hmem.2.2.1, hmem.2.2.2⟩
    constructor
    · intro hb
      exact jitter_unresolved_id (jitterDeptStage data cc dc normal)
        "Latitude_Commune" "Longitude_Commune" _ _ i r3 hr3 (by decide) hb
    · intro hb
      have h := jitterPair_row (jitterDeptStage data cc dc normal)
        "Latitude_Commune" "Longitude_Commune"
        (normal 2 0 (1/1000) (communeMaskCount data cc dc normal))
        (normal 3 0 (1/1000) (communeMaskCount data cc dc normal))
        i r3 hr3 (by decide)
      unfold jitterCommuneStage communeJitterIdx
      rw [h, if_pos hb, if_pos hmemD]
  · intro hne
    unfold preprocess_data
    rw [if_neg (by simp [hne])]

/-- Claim C5 witness: on the one-row commune frame, the unresolved
department pair passes through the department jitter unchanged, and the
resolved commune pair receives one draw of the call with standard deviation
1/1000 on each component. -/
theorem C5_witness :
    (jitterDeptStage dfCommuneX ccX [] sevenDraws).rows[0]? =
      some rowCommuneX ∧
    (jitterCommuneStage dfCommuneX ccX [] sevenDraws).rows[0]? =
      some (setCell (setCell rowCommuneX "Latitude_Commune"
        (valAdd (getCell rowCommuneX "Latitude_Commune")
          (sevenDraws 2 0 (1/1000)
            (communeMaskCount dfCommuneX ccX [] sevenDraws)
            (communeJitterIdx dfCommuneX ccX [] sevenDraws 0))))
        "Longitude_Commune"
        (valAdd (getCell rowCommuneX "Longitude_Commune")
          (sevenDraws 3 0 (1/1000)
            (communeMaskCount dfCommuneX ccX [] sevenDraws)
            (communeJitterIdx dfCommuneX ccX [] sevenDraws 0)))) := by
  have h := C5_jitter_granularity dfCommuneX ccX [] sevenDraws 0
    rowCommuneX rfl
  have h1 := h.1 rfl
  exact ⟨h1, (h.2.2.1 rowCommuneX h1).2 rfl⟩
